import Mathlib

/-!
Verification of the gwalk repository-walker (`gwalk.py`) against its
natural-language specification.

This file gives a shallow embedding of the core of `gwalk.py`:

* the per-file status record `AssetState` and its classification
  (`RepoStatus.AssetState.match`, here `AssetState.flags` /
  `AssetState.matchCond`);
* repository-level condition matching (`RepoStatus.match`, here `repoMatch`);
* the porcelain status-line parser (`RepoStatus.load`, here `parseLine` /
  `loadLines`), including a faithful backtracking model of the rename regex
  `^"?(.+?)"? -> "?(.+?)"?$`;
* the directory walker (`RepoWalk.__iter__`, here `iterRecursive` /
  `iterNonRecursive`) over an explicit filesystem tree, with `os.walk`
  modelled as a top-down depth-first traversal;
* the blacklist/whitelist resolution block of `main` (here
  `resolveFilterFiles`), with `os.path.exists` as an environment oracle;
* the action dispatcher `RepoHandler.perform` (here `performBody` /
  `perform`), with `os.system`, the platform test and
  `repo.repo.active_branch.name` as oracles, and Python's
  try/except-Exception/finally modelled explicitly.

Python strings are embedded as `List Char`; Python exceptions as an explicit
`Except` with `PyErr` distinguishing `RuntimeError` (carrying its message)
from `IndexError`.
-/

/-! ### Python string primitives -/

/-- List-prefix test used to implement Python's substring operator. -/
def pyPrefixOf : List Char → List Char → Bool
  | [], _ => true
  | _ :: _, [] => false
  | a :: t, b :: u => a == b && pyPrefixOf t u

/-- Python's substring containment `needle in hay` on strings. -/
def pyIn (needle : List Char) : List Char → Bool
  | [] => pyPrefixOf needle []
  | c :: rest => pyPrefixOf needle (c :: rest) || pyIn needle rest

/-- Python's `str.strip(chars)`: remove leading and trailing characters
drawn from `cs`. -/
def pyStrip (cs : List Char) (s : List Char) : List Char :=
  ((s.dropWhile (· ∈ cs)).reverse.dropWhile (· ∈ cs)).reverse

/-- Core of `str.replace` for a non-empty pattern `o :: os`: scan left to
right, replacing non-overlapping occurrences.  `fuel` only bounds the
recursion depth; every step consumes at least one character of the scanned
string, so starting it at the string's length makes the `fuel = 0` fallback
unreachable. -/
def pyReplaceGo (o : Char) (os : List Char) (new : List Char) : Nat → List Char → List Char
  | _, [] => []
  | 0, s => s
  | fuel + 1, c :: rest =>
      if pyPrefixOf (o :: os) (c :: rest) then
        new ++ pyReplaceGo o os new fuel ((c :: rest).drop (o :: os).length)
      else c :: pyReplaceGo o os new fuel rest

/-- Python's `s.replace(old, new)`.  The source only ever replaces non-empty
literal placeholders, so the empty-pattern case (which Python treats
specially) is the identity here. -/
def pyReplace (old new s : List Char) : List Char :=
  match old with
  | [] => s
  | o :: os => pyReplaceGo o os new s.length s

/-- Python's `' '.join(params)` from `RepoHandler.perform`. -/
def joinSpace : List (List Char) → List Char
  | [] => []
  | [p] => p
  | p :: rest => p ++ ' ' :: joinSpace rest

/-! ### Python exceptions -/

/-- Python exceptions raised by the embedded code: `RuntimeError` with its
message, and `IndexError` from out-of-range string indexing. -/
inductive PyErr where
  | runtimeError (msg : List Char)
  | indexError
deriving DecidableEq, Repr

/-- Decidable equality on `Except`, so that concrete runs of the embedded
fallible code can be checked by `decide`. -/
instance {ε α : Type} [DecidableEq ε] [DecidableEq α] : DecidableEq (Except ε α) := fun x y =>
  match x, y with
  | .ok a, .ok b =>
      if h : a = b then .isTrue (congrArg Except.ok h)
      else .isFalse (fun hc => h (Except.ok.inj hc))
  | .error e, .error f =>
      if h : e = f then .isTrue (congrArg Except.error h)
      else .isFalse (fun hc => h (Except.error.inj hc))
  | .ok _, .error _ => .isFalse (fun hc => Except.noConfusion hc)
  | .error _, .ok _ => .isFalse (fun hc => Except.noConfusion hc)

/-! ### Per-file status state (`RepoStatus.AssetState`) -/

/-- One parsed status line: `X`/`Y` are the two status-code columns (each a
Python string of length at most one), `PATH` the current path, `ORIG_PATH`
set only for rename/copy lines.  Mirrors `RepoStatus.AssetState.__init__`. -/
structure AssetState where
  X : List Char
  Y : List Char
  PATH : List Char
  ORIG_PATH : Option (List Char)
deriving DecidableEq, Repr

/-- Constructs an `AssetState` from two single status-code characters, the
way `RepoStatus.load` fills in `asset.X` and `asset.Y`. -/
def mkXY (x y : Char) : AssetState :=
  ⟨[x], [y], [], none⟩

/-- Classification computed at the top of `AssetState.match` (gwalk.py
lines 198-202): `flags = 1` when `not self.X in ' ?' or self.Y in 'MD'`,
else `flags = 2` when `self.X == '?' and self.Y == '?'`, else `0`. -/
def AssetState.flags (a : AssetState) : Nat :=
  if !(pyIn a.X (" ?".toList)) || pyIn a.Y ("MD".toList) then 1
  else if a.X = ("?".toList) && a.Y = ("?".toList) then 2
  else 0

/-- Message of the `RuntimeError` raised by `AssetState.match` on an
unknown condition (gwalk.py line 211). -/
def invalidConditionMsg (condition : List Char) : List Char :=
  ("Invalid parameter: condition=".toList) ++ condition

/-- Embeds `RepoStatus.AssetState.match` (gwalk.py lines 153-211). -/
def AssetState.matchCond (a : AssetState) (condition : List Char) : Except PyErr Bool :=
  if condition = ("modified".toList) then .ok (a.flags == 1)
  else if condition = ("untracked".toList) then .ok (a.flags == 2)
  else if condition = ("dirty".toList) then .ok (a.flags != 0)
  else .error (.runtimeError (invalidConditionMsg condition))

/-! ### Repository-level matching (`RepoStatus.match`) -/

/-- The `for asset in self.status` loop at the end of `RepoStatus.match`
(gwalk.py lines 290-293): returns `True` on the first matching asset, and
propagates the `RuntimeError` raised by `AssetState.match` on an invalid
condition. -/
def anyAssetMatch (status : List AssetState) (condition : List Char) : Except PyErr Bool :=
  match status with
  | [] => .ok false
  | a :: rest =>
    match a.matchCond condition with
    | .error e => .error e
    | .ok true => .ok true
    | .ok false => anyAssetMatch rest condition

/-- Embeds `RepoStatus.match` (gwalk.py lines 275-293); `self.status` is the
list of parsed `AssetState`s, and `bool(self)` is its non-emptiness
(`RepoStatus.__bool__`, lines 213-215). -/
def repoMatch (status : List AssetState) (condition : List Char) : Except PyErr Bool :=
  if condition = ("all".toList) then .ok true
  else if condition = ("clean".toList) then .ok status.isEmpty
  else if condition = ("dirty".toList) then .ok (!status.isEmpty)
  else anyAssetMatch status condition

/-! ### Status-line parsing (`RepoStatus.load`) -/

/-- Pattern atoms of the rename regex `^"?(.+?)"? -> "?(.+?)"?$` used in
`RepoStatus.load` (gwalk.py line 264): a literal, an optional (greedy)
double quote `"?`, and a lazy one-or-more-character capturing group
`(.+?)`. -/
inductive RePat where
  | lit (l : List Char)
  | optQuote
  | group
deriving DecidableEq, Repr

mutual

/-- Backtracking matcher for an anchored pattern list against the whole
input, with Python `re` priority: `"?` prefers consuming a quote, `(.+?)`
prefers the shortest capture, earlier choice points take precedence.
Returns the captured groups in order, or `none` when no match exists. -/
def reMatch : List RePat → List Char → Option (List (List Char))
  | [], [] => some []
  | [], _ :: _ => none
  | .lit l :: ps, s =>
      if pyPrefixOf l s then reMatch ps (s.drop l.length) else none
  | .optQuote :: ps, s =>
      if s.head? = some '"' then
        match reMatch ps s.tail with
        | some gs => some gs
        | none => reMatch ps s
      else reMatch ps s
  | .group :: ps, s => reGroup ps [] s
termination_by ps s => 2 * s.length + 2 * ps.length

/-- Lazy expansion of a `(.+?)` group: capture one more character (any
character except a newline, as Python's `.`) and try to finish the match;
on failure extend the capture. -/
def reGroup (ps : List RePat) (acc : List Char) : List Char → Option (List (List Char))
  | [] => none
  | c :: rest =>
      if c = '\n' then none
      else
        match reMatch ps rest with
        | some gs => some ((acc ++ [c]) :: gs)
        | none => reGroup ps (acc ++ [c]) rest
termination_by s => 2 * s.length + 2 * ps.length + 1

end

/-- The rename/copy pattern `^"?(.+?)"? -> "?(.+?)"?$` of gwalk.py
line 264. -/
def renameRe : List RePat :=
  [.optQuote, .group, .optQuote, .lit (" -> ".toList), .optQuote, .group, .optQuote]

/-- Python slice `s[1:-2]` as applied in gwalk.py line 270. -/
def pySlice1m2 (s : List Char) : List Char :=
  (s.drop 1).take (s.length - 3)

/-- Embeds one iteration of the parsing loop of `RepoStatus.load`
(gwalk.py lines 253-271) on an already newline-stripped line.  Returns
`ok none` for a skipped blank line, `ok (some asset)` for a parsed entry,
`error` for the `RuntimeError` on an inconsistent rename line or the
`IndexError` raised by `asset.PATH[0]` when the path field is empty. -/
def parseLine (line : List Char) : Except PyErr (Option AssetState) :=
  if line.length = 0 then .ok none
  else
    let X := line.take 1
    let Y := (line.drop 1).take 1
    let PATH := line.drop 3
    if pyIn (" -> ".toList) PATH then
      match reMatch renameRe PATH with
      | none => .error (.runtimeError (("Unexpected format: ".toList) ++ line))
      | some gs =>
          .ok (some ⟨X, Y, gs.getD 1 [], some (gs.getD 0 [])⟩)
    else
      match PATH with
      | [] => .error .indexError
      | c :: _ =>
          if c = '"' && PATH.getLast? = some '"' then
            .ok (some ⟨X, Y, pySlice1m2 PATH, none⟩)
          else .ok (some ⟨X, Y, PATH, none⟩)

/-- Embeds the whole parsing loop of `RepoStatus.load` over the status
command's output lines: appends each parsed entry in order and propagates
the first raised exception. -/
def loadLines : List (List Char) → Except PyErr (List AssetState)
  | [] => .ok []
  | line :: rest =>
    match parseLine line with
    | .error e => .error e
    | .ok none => loadLines rest
    | .ok (some a) =>
      match loadLines rest with
      | .error e => .error e
      | .ok l => .ok (a :: l)

/-! ### Directory walking (`RepoWalk`) -/

/-- A filesystem directory: its name, subdirectories and plain files.
`os.walk` and the repository-marker tests are evaluated against this
tree. -/
inductive FsTree where
  | dir (name : List Char) (subdirs : List FsTree) (files : List (List Char))

/-- Name of a directory node. -/
def FsTree.name : FsTree → List Char
  | .dir n _ _ => n

/-- Immediate subdirectories of a directory node. -/
def FsTree.subdirs : FsTree → List FsTree
  | .dir _ ds _ => ds

/-- Plain files directly inside a directory node. -/
def FsTree.files : FsTree → List (List Char)
  | .dir _ _ fs => fs

mutual

/-- Model of `os.walk(directory)` (top-down): one `(root, dirs, files)`
triple per directory of the subtree, parent before children, children in
listing order.  Paths are lists of path segments below `pfx`. -/
def osWalk (pfx : List (List Char)) :
    FsTree → List (List (List Char) × List (List Char) × List (List Char))
  | .dir n subs fs =>
    (pfx ++ [n], subs.map FsTree.name, fs) :: osWalkList (pfx ++ [n]) subs

/-- Traversal of a list of sibling subtrees, in order. -/
def osWalkList (pfx : List (List Char)) :
    List FsTree → List (List (List Char) × List (List Char) × List (List Char))
  | [] => []
  | t :: ts => osWalk pfx t ++ osWalkList pfx ts

end

/-- Embeds `RepoWalk.repoType` (gwalk.py lines 125-131): `1` when `.git`
is among the subdirectory names, `2` when it is among the files, else
`0`. -/
def repoType (dirs : List (List Char)) (files : List (List Char)) : Nat :=
  if (".git".toList) ∈ dirs then 1
  else if (".git".toList) ∈ files then 2
  else 0

/-- Embeds `RepoWalk.isRepo` (gwalk.py lines 133-136): inspect only the
first `os.walk` triple of the directory, i.e. the directory's own
listing. -/
def FsTree.isRepo (t : FsTree) : Bool :=
  repoType (t.subdirs.map FsTree.name) t.files != 0

/-- Embeds the recursive branch of `RepoWalk.__iter__` (gwalk.py
lines 109-112): walk the whole subtree and yield every visited directory
whose listing contains a `.git` marker. -/
def iterRecursive (t : FsTree) : List (List (List Char)) :=
  (osWalk [] t).filterMap
    (fun x => if repoType x.2.1 x.2.2 ≠ 0 then some x.1 else none)

/-- The fixed exclusion list of the non-recursive branch (gwalk.py
line 118). -/
def excludedNames : List (List Char) :=
  [".git".toList, ".vs".toList, ".vscode".toList]

/-- Embeds the non-recursive branch of `RepoWalk.__iter__` (gwalk.py
lines 113-123): one `os.walk` iteration, yield the root when it is a
repository, then each non-excluded immediate subdirectory that is a
repository, then `break`. -/
def iterNonRecursive (t : FsTree) : List (List (List Char)) :=
  (if t.isRepo then [[t.name]] else []) ++
    t.subdirs.filterMap (fun d =>
      if d.name ∈ excludedNames then none
      else if d.isRepo then some [t.name, d.name] else none)

/-- Directories visited by the underlying traversal: the roots of the
`os.walk` triples. -/
def walkVisited (t : FsTree) : List (List (List Char)) :=
  (osWalk [] t).map (fun x => x.1)

/-! ### Blacklist/whitelist resolution in `main` -/

/-- Filesystem oracle for `os.path.exists` as consulted by `main`. -/
structure Env where
  pathExists : List Char → Bool

/-- The strip set of `args.blacklist.strip(' \'"')` (gwalk.py
lines 446-448): space, single quote, double quote. -/
def pyStripSet : List Char :=
  [' ', Char.ofNat 39, '"']

/-- The repository-local blacklist filename `f'{projectName}.blacklist'`. -/
def gwalkBlacklistName : List Char :=
  "gwalk.blacklist".toList

/-- Embeds the blacklist/whitelist resolution block of `main` (gwalk.py
lines 447-461): strip the arguments, validate that a supplied blacklist or
whitelist file exists, substitute the repository-local `gwalk.blacklist`
whenever it exists, let a whitelist imply `force`, and let `force` clear
the blacklist.  Returns the final `(blacklist, whitelist, force)`. -/
def resolveFilterFiles (env : Env) (blacklistArg whitelistArg : List Char) (force : Bool) :
    Except PyErr (List Char × List Char × Bool) :=
  let blacklist := pyStrip pyStripSet blacklistArg
  let whitelist := pyStrip pyStripSet whitelistArg
  if blacklist ≠ [] && !env.pathExists blacklist then
    .error (.runtimeError (("Invalid blacklist: ".toList) ++ blacklist))
  else if whitelist ≠ [] && !env.pathExists whitelist then
    .error (.runtimeError (("Invalid whitelist: ".toList) ++ whitelist))
  else
    let blacklist1 := if env.pathExists gwalkBlacklistName then gwalkBlacklistName else blacklist
    let force1 := if whitelist ≠ [] then true else force
    let blacklist2 := if force1 then [] else blacklist1
    .ok (blacklist2, whitelist, force1)

/-! ### Action dispatch (`RepoHandler.perform`) -/

/-- The literal placeholder `{ab}` from gwalk.py line 350. -/
def phAB : List Char :=
  "\x7bab\x7d".toList

/-- The literal placeholder `{ActiveBranch}` from gwalk.py line 352. -/
def phActiveBranch : List Char :=
  "\x7bActiveBranch\x7d".toList

/-- The literal placeholder `{RepositoryName}` from gwalk.py line 354. -/
def phRepositoryName : List Char :=
  "\x7bRepositoryName\x7d".toList

/-- Embeds the command-template substitution of the `run` action
(gwalk.py lines 349-355).  `branchRes` is `repo.repo.active_branch.name`,
evaluated only when a branch placeholder occurs in the command (it raises
for a detached HEAD); `repoName` is `os.path.basename(repo.repo.working_dir)`.
Each replacement is exact-case, as in the source. -/
def substituteCmdE (params : List (List Char)) (branchRes : Except PyErr (List Char))
    (repoName : List Char) : Except PyErr (List Char) := do
  let cmd0 := joinSpace params
  let cmd1 ←
    if pyIn phAB cmd0 then do
      let b ← branchRes
      pure (pyReplace phAB b cmd0)
    else pure cmd0
  let cmd2 ←
    if pyIn phActiveBranch cmd1 then do
      let b ← branchRes
      pure (pyReplace phActiveBranch b cmd1)
    else pure cmd1
  let cmd3 :=
    if pyIn phRepositoryName cmd2 then pyReplace phRepositoryName repoName cmd2
    else cmd2
  pure cmd3

/-- Process-wide mutable state touched by `RepoHandler.perform`: the
current working directory and the handler's `success`/`failure` lists
(repositories recorded by their working directory). -/
structure OSState where
  cwd : List Char
  success : List (List Char)
  failure : List (List Char)
deriving DecidableEq, Repr

/-- Oracles for the external effects of `RepoHandler.perform`:
`os.system` (command to raw exit status), the platform test
`platform.system().lower() == 'windows'`, and the possibly-raising
`repo.repo.active_branch.name`. -/
structure RunEnv where
  system : List Char → Nat
  windows : Bool
  branch : Except PyErr (List Char)

/-- Embeds the body of the `try` block of `RepoHandler.perform`
(gwalk.py lines 336-365) for one repository: dispatch on `args.action`,
change into the repository's working directory, run the subprocess, and
for `run` normalize the exit status (`>>= 8` off Windows) and record the
repository in `success` or `failure`. -/
def performBody (env : RunEnv) (action : List Char) (params : List (List Char))
    (workingDir : List Char) (repoName : List Char) (s : OSState) :
    Except PyErr Unit × OSState :=
  if action = ("bash".toList) then
    let s1 := { s with cwd := workingDir }
    let _ := env.system ("bash".toList)
    (.ok (), s1)
  else if action = ("gui".toList) then
    let s1 := { s with cwd := workingDir }
    let _ := env.system ("git gui".toList)
    (.ok (), s1)
  else if action = ("run".toList) then
    match substituteCmdE params env.branch repoName with
    | .error e => (.error e, s)
    | .ok cmd =>
        let s1 := { s with cwd := workingDir }
        let code0 := env.system cmd
        let code := if env.windows then code0 else code0 >>> 8
        if code = 0 then (.ok (), { s1 with success := s1.success ++ [workingDir] })
        else (.ok (), { s1 with failure := s1.failure ++ [workingDir] })
  else (.ok (), s)

/-- Embeds `RepoHandler.perform` (gwalk.py lines 333-371): remember
`lastcwd = os.getcwd()`, run the action body, catch every `Exception`
(`traceback.print_exc()` only logs), and in the `finally` clause restore
the working directory with `os.chdir(lastcwd)`. -/
def perform (env : RunEnv) (action : List Char) (params : List (List Char))
    (workingDir : List Char) (repoName : List Char) (s : OSState) :
    Except PyErr Unit × OSState :=
  let lastcwd := s.cwd
  match performBody env action params workingDir repoName s with
  | (.ok _, s1) => (.ok (), { s1 with cwd := lastcwd })
  | (.error _, s1) => (.ok (), { s1 with cwd := lastcwd })

/-! ### Fixtures for the claims -/

/-- The two-column status-code alphabet of the porcelain short format:
`' '`, `M`, `A`, `D`, `R`, `C`, `U`, `?`, `!`. -/
def statusAlphabet : List Char :=
  [' ', 'M', 'A', 'D', 'R', 'C', 'U', '?', '!']

/-- Filesystem oracle in which both the user-supplied file
`custom.blacklist` and the repository-local `gwalk.blacklist` exist. -/
def c5Env : Env :=
  ⟨fun p => p = gwalkBlacklistName || p = ("custom.blacklist".toList)⟩

/-- Directory tree with a repository `outer` whose `.git` directory
contains a `hooks` subdirectory, and a nested repository `outer/nested`. -/
def c7Tree : FsTree :=
  .dir ("outer".toList)
    [ .dir (".git".toList) [.dir ("hooks".toList) [] []] [],
      .dir ("nested".toList) [.dir (".git".toList) [] []] [] ]
    []

/-! ### Claims -/

/-- C1: for every `FileState` whose two status codes are drawn from the
alphabet `{' ','M','A','D','R','C','U','?','!'}`, the classification of
`AssetState.match` lands in exactly one of `{unmodified, modified,
untracked}` (`flags` = 0, 1 or 2): `modified` holds iff the index code is
outside `{' ','?'}` or the worktree code is in `{'M','D'}`; `untracked`
holds iff both codes are `'?'`; and the two are mutually exclusive. -/
theorem c1_classification (x y : Char)
    (hx : x ∈ statusAlphabet) (hy : y ∈ statusAlphabet) :
    ((mkXY x y).flags = 0 ∨ (mkXY x y).flags = 1 ∨ (mkXY x y).flags = 2)
    ∧ ((mkXY x y).matchCond ("modified".toList) = .ok true ↔
        (¬ (x = ' ' ∨ x = '?') ∨ y = 'M' ∨ y = 'D'))
    ∧ ((mkXY x y).matchCond ("untracked".toList) = .ok true ↔ (x = '?' ∧ y = '?'))
    ∧ ¬ ((mkXY x y).matchCond ("modified".toList) = .ok true
         ∧ (mkXY x y).matchCond ("untracked".toList) = .ok true) := by
  fin_cases hx <;> fin_cases hy <;> decide

/-- Witness for C1 at the concrete code pair `X = 'M'`, `Y = ' '`. -/
theorem c1_classification_witness :
    ((mkXY 'M' ' ').flags = 0 ∨ (mkXY 'M' ' ').flags = 1 ∨ (mkXY 'M' ' ').flags = 2)
    ∧ ((mkXY 'M' ' ').matchCond ("modified".toList) = .ok true ↔
        (¬ ('M' = ' ' ∨ 'M' = '?') ∨ ' ' = 'M' ∨ ' ' = 'D'))
    ∧ ((mkXY 'M' ' ').matchCond ("untracked".toList) = .ok true ↔ ('M' = '?' ∧ ' ' = '?'))
    ∧ ¬ ((mkXY 'M' ' ').matchCond ("modified".toList) = .ok true
         ∧ (mkXY 'M' ' ').matchCond ("untracked".toList) = .ok true) :=
  c1_classification 'M' ' ' (by decide) (by decide)

/-- C2 (code bug): on the status line `?? "a.txt"` — no rename arrow, path
field wrapped in double quotes — the parser produces the path `a.tx`: the
slice `asset.PATH[1:-2]` drops the closing quote together with the final
interior character, instead of stripping exactly the wrapping quote pair
(which would give `a.txt`). -/
theorem c2_quote_strip_bug :
    parseLine ("?? \"a.txt\"".toList)
      = .ok (some ⟨("?".toList), ("?".toList), ("a.tx".toList), none⟩)
    ∧ pySlice1m2 ("\"a.txt\"".toList) ≠ ("a.txt".toList) := by
  decide

/-- C3: `RepoStatus.match` returns `True` on `clean` exactly when the file
list is empty, `True` on `dirty` exactly when it is non-empty, and the two
answers are exact Boolean negations of each other for every repository
state. -/
theorem c3_clean_dirty (status : List AssetState) :
    repoMatch status ("clean".toList) = .ok status.isEmpty
    ∧ repoMatch status ("dirty".toList) = .ok (!status.isEmpty)
    ∧ (status.isEmpty = true ↔ status = []) := by
  refine ⟨?_, ?_, ?_⟩
  · unfold repoMatch
    rw [if_neg (by decide), if_pos rfl]
  · unfold repoMatch
    rw [if_neg (by decide), if_neg (by decide), if_pos rfl]
  · cases status <;> simp

/-- Counterexample to C4: on a repository state with an empty file list,
`RepoStatus.match` applied to the out-of-enumeration condition `bogus`
silently returns `False` instead of failing with `InvalidCondition`: the
per-file loop that raises the error never executes. -/
theorem c4_counterexample :
    repoMatch [] ("bogus".toList) = .ok false := by
  decide

/-- C4 (amended): calling `RepoStatus.match` with a condition outside
`{all, clean, dirty, modified, untracked}` raises the `InvalidCondition`
`RuntimeError` when the file list is non-empty, but silently returns
`False` when the file list is empty. -/
theorem c4_amended_invalid_condition (status : List AssetState) (condition : List Char)
    (h : condition ∉ [("all".toList), ("clean".toList), ("dirty".toList),
        ("modified".toList), ("untracked".toList)]) :
    (status = [] → repoMatch status condition = .ok false)
    ∧ (status ≠ [] → repoMatch status condition
        = .error (.runtimeError (invalidConditionMsg condition))) := by
  simp only [List.mem_cons, List.not_mem_nil, or_false, not_or] at h
  obtain ⟨h1, h2, h3, h4, h5⟩ := h
  have hbase : ∀ st : List AssetState,
      repoMatch st condition = anyAssetMatch st condition := by
    intro st
    unfold repoMatch
    rw [if_neg h1, if_neg h2, if_neg h3]
  have hasset : ∀ a : AssetState, a.matchCond condition
      = .error (.runtimeError (invalidConditionMsg condition)) := by
    intro a
    unfold AssetState.matchCond
    rw [if_neg h4, if_neg h5, if_neg h3]
  refine ⟨?_, ?_⟩
  · rintro rfl
    rw [hbase]
    rfl
  · intro hne
    match status with
    | [] => exact absurd rfl hne
    | a :: rest =>
      rw [hbase]
      unfold anyAssetMatch
      rw [hasset a]

/-- Witness for C4 (amended) at a singleton untracked file list and the
concrete invalid condition `bogus`. -/
theorem c4_amended_witness :
    repoMatch [mkXY '?' '?'] ("bogus".toList)
      = .error (.runtimeError (invalidConditionMsg ("bogus".toList))) :=
  (c4_amended_invalid_condition [mkXY '?' '?'] ("bogus".toList) (by decide)).2
    (by simp)

/-- C10: the status parser is not total on non-blank lines with an empty
path field: on the two-character line `??` (no rename arrow, nothing at
offset 3 onward) `RepoStatus.load` raises an `IndexError` at
`asset.PATH[0]` rather than producing a file state or a format
`RuntimeError`. -/
theorem c10_empty_path_field_index_error :
    parseLine ("??".toList) = .error .indexError
    ∧ loadLines [("??".toList)] = .error .indexError := by
  decide

/-- C5 (code bug): with an explicit blacklist `custom.blacklist` supplied
and a repository-local `gwalk.blacklist` present, `main` replaces the
user-supplied file by the discovered local file: the discovery on gwalk.py
line 454 is not guarded by "no explicit blacklist was supplied", contrary
to the claim and to the program's own header documentation. -/
theorem c5_blacklist_discovery_bug :
    resolveFilterFiles c5Env ("custom.blacklist".toList) [] false
      = .ok (gwalkBlacklistName, [], false)
    ∧ gwalkBlacklistName ≠ ("custom.blacklist".toList) := by
  decide

/-- C6 (code bug): placeholder substitution in the `run` action is
case-sensitive, not case-insensitive: with active branch `main`, the
template `git checkout {AB}` is executed with the placeholder left
literally in place, while the exact-case template `git checkout {ab}` is
substituted. -/
theorem c6_case_sensitive_bug :
    substituteCmdE [("git".toList), ("checkout".toList), ("\x7bAB\x7d".toList)]
        (.ok ("main".toList)) ("repo".toList)
      = .ok ("git checkout \x7bAB\x7d".toList)
    ∧ substituteCmdE [("git".toList), ("checkout".toList), ("\x7bab\x7d".toList)]
        (.ok ("main".toList)) ("repo".toList)
      = .ok ("git checkout main".toList)
    ∧ ("git checkout \x7bAB\x7d".toList) ≠ ("git checkout main".toList) := by
  decide

/-- Counterexample to C7: in recursive mode, on a tree where the yielded
repository root `outer` has a `.git` directory containing `hooks`, the
traversal does visit `outer/.git` and `outer/.git/hooks`: the underlying
walk is never pruned at the repository's metadata directory. -/
theorem c7_counterexample :
    (["outer".toList] ∈ iterRecursive c7Tree)
    ∧ (["outer".toList, ".git".toList] ∈ walkVisited c7Tree)
    ∧ (["outer".toList, ".git".toList, "hooks".toList] ∈ walkVisited c7Tree) := by
  decide

/-- C7 (amended): the recursive walk performs the full unpruned traversal —
it yields exactly the visited directories whose own listing contains a
`.git` marker, so it remains free to continue into sibling subtrees and
yields nested repositories, but it also descends through a yielded
repository's `.git` directory (visiting its contents without yielding
them unless they themselves contain a marker). -/
theorem c7_amended_no_pruning :
    (∀ (t : FsTree) (p : List (List Char)),
        p ∈ iterRecursive t ↔
          ∃ ds fs, (p, ds, fs) ∈ osWalk [] t ∧ repoType ds fs ≠ 0)
    ∧ iterRecursive c7Tree = [["outer".toList], ["outer".toList, "nested".toList]]
    ∧ ["outer".toList, ".git".toList, "hooks".toList] ∈ walkVisited c7Tree := by
  refine ⟨?_, by decide, by decide⟩
  intro t p
  unfold iterRecursive
  rw [List.mem_filterMap]
  constructor
  · rintro ⟨⟨q, ds, fs⟩, hmem, heq⟩
    by_cases h : repoType ds fs ≠ 0
    · refine ⟨ds, fs, ?_, h⟩
      have hqp : q = p := by simpa [h] using heq
      exact hqp ▸ hmem
    · simp [h] at heq
  · rintro ⟨ds, fs, hmem, h⟩
    exact ⟨(p, ds, fs), hmem, by simp [h]⟩

/-- C8: the non-recursive walk yields the root directory iff the root's own
listing contains a `.git` marker (directory or file), yields exactly the
immediate subdirectories outside the fixed exclusion set
`{.git, .vs, .vscode}` that are repository roots, and yields nothing from
deeper levels (every yielded path has at most two segments, so a marker in
a sub-subdirectory is never discovered). -/
theorem c8_nonrecursive_walk (t : FsTree) (p : List (List Char)) :
    (p ∈ iterNonRecursive t ↔
      (t.isRepo = true ∧ p = [t.name])
      ∨ ∃ d, d ∈ t.subdirs ∧ d.name ∉ excludedNames ∧ d.isRepo = true
          ∧ p = [t.name, d.name])
    ∧ (iterNonRecursive t).all (fun q => q.length ≤ 2) = true := by
  have key : ∀ q : List (List Char), q ∈ iterNonRecursive t ↔
      (t.isRepo = true ∧ q = [t.name])
      ∨ ∃ d, d ∈ t.subdirs ∧ d.name ∉ excludedNames ∧ d.isRepo = true
          ∧ q = [t.name, d.name] := by
    intro q
    unfold iterNonRecursive
    rw [List.mem_append, List.mem_filterMap]
    constructor
    · rintro (hroot | ⟨d, hd, heq⟩)
      · left
        by_cases hr : t.isRepo
        · simp only [hr, if_true, List.mem_singleton] at hroot
          exact ⟨hr, hroot⟩
        · simp [hr] at hroot
      · right
        by_cases h1 : d.name ∈ excludedNames
        · simp [h1] at heq
        · by_cases h2 : d.isRepo
          · simp only [h1, if_false, h2, if_true, Option.some.injEq] at heq
            exact ⟨d, hd, h1, h2, heq.symm⟩
          · simp [h1, h2] at heq
    · rintro (⟨hr, rfl⟩ | ⟨d, hd, h1, h2, rfl⟩)
      · left
        simp [hr]
      · right
        exact ⟨d, hd, by simp [h1, h2]⟩
  refine ⟨key p, ?_⟩
  rw [List.all_eq_true]
  intro q hq
  rcases (key q).mp hq with ⟨_, rfl⟩ | ⟨d, _, _, _, rfl⟩ <;> simp

/-- C9: `RepoHandler.perform` restores the process working directory on
every exit path — including when the action body raises — and catches every
exception raised during action execution, returning normally so that the
batch continues with the next repository.  Quantified over all oracles, in
particular over a raising `active_branch` and every exit status. -/
theorem c9_cwd_restored_and_exceptions_caught (env : RunEnv) (action : List Char)
    (params : List (List Char)) (workingDir repoName : List Char) (s : OSState) :
    (perform env action params workingDir repoName s).2.cwd = s.cwd
    ∧ (perform env action params workingDir repoName s).1 = .ok () := by
  cases hb : performBody env action params workingDir repoName s with
  | mk r s1 =>
    cases r with
    | ok u => simp [perform, hb]
    | error e => simp [perform, hb]
